import Mathlib

/-
  Shallow embedding of src/source/general/include/GateMessageManager.hh
  (the GATE message-management facility: a category registry with verbosity
  thresholds, a level filter, an indentation tracker, and three severity
  channels realized as C++ macros).

  The message macros are modelled as functions producing a trace of
  effects (`Act`): console writes, tab mutations, process exit, and the
  Geant4 structured fatal-exception call.  A small interpreter `run`
  executes a trace against the tab state, stopping at process
  termination, and reports the outputs, the final tab string, the exit
  code (if any) and whether the structured exception was actually raised.

  The bodies of the static member functions `GetMessageLevel` and
  `GetSpace` are declared in the header but defined in a source file that
  is not part of this tree; those two definitions are modelled from the
  specification (see their doc comments).  Everything else is translated
  directly from the header's macro and inline-function text.
-/

namespace Gate

/-- `std::map<std::string,int> mMessageLevel` (header line 470): the
registry from category key to its current level, modelled as an
association list. -/
abbrev Levels := List (String × Int)

/-- Modelled from the spec: the body of `GateMessageManager::GetMessageLevel`
is not under src/ (the header only declares it, line 447).  The spec says
`GetLevel(key) -> level | NotFound`: it returns the current threshold of a
registered key, and a sentinel for an unregistered one; the header macro
`GateOnMessageLevel` (line 129) tests the sentinel with `< 0`, so the
NotFound sentinel is modelled as `-1`. -/
def GateMessageManager.GetMessageLevel (lvls : Levels) (key : String) : Int :=
  match lvls.lookup key with
  | some l => l
  | none => -1

/-- Modelled from the spec: the body of `GateMessageManager::GetSpace` is
not under src/ (the header only declares it, line 449).  The header's own
comment (lines 92-93) documents that, with `GATE_PREPEND_MESSAGE_WITH_SPACE`
defined, messages are prepended "by as many spaces as the message level",
so `GetSpace n` renders `n` spaces (none for a non-positive argument,
matching a `for (i = 0; i < n; i++)` loop). -/
def GateMessageManager.GetSpace (n : Int) : String :=
  String.mk (List.replicate n.toNat ' ')

/-- `IncTab` (header line 450): `GetTab() += std::string("   ")` appends
three spaces to the tab string.  The tab string is modelled as a character
list. -/
def GateMessageManager.IncTab (tab : List Char) : List Char :=
  tab ++ [' ', ' ', ' ']

/-- `DecTab` (header line 451):
`GetTab() = GetTab().substr(0, GetTab().length() - 3)`.
`length()` is a `size_t`, so `length() - 3` wraps modulo `2^64` when the
length is below 3; `substr(0, count)` clamps `count` to the string length,
which `List.take` does as well. -/
def GateMessageManager.DecTab (tab : List Char) : List Char :=
  tab.take ((tab.length + (2 ^ 64 - 3)) % 2 ^ 64)

/-- `ResetTab` (header line 452): `GetTab() = std::string("")`. -/
def GateMessageManager.ResetTab (_tab : List Char) : List Char :=
  []

/-- One effect of an expanded message macro: a chain of `<<` insertions
into `std::cout` (one `out` per full chain), a tab mutation, the C
`exit` call, or the Geant4 `G4Exception(loc, what, FatalException, " ")`
call. -/
inductive Act where
  | out (s : String)
  | incTab
  | decTab
  | resetTab
  | exitCall (code : Int)
  | g4Exception (loc what : String)
deriving DecidableEq, Repr

/-- Result of executing a trace: the console writes that actually
happened (in order), the final tab string, the exit code if `exit` was
reached, and whether `G4Exception` was actually invoked. -/
structure RunResult where
  output : List String
  tab : List Char
  exited : Option Int
  exceptionRaised : Bool
deriving DecidableEq, Repr

/-- Whether execution has ended: `exit` terminates the process at once,
and `G4Exception` with `FatalException` likewise ends it (the host
aborts). -/
def RunResult.halted (k : RunResult) : Bool :=
  k.exited.isSome || k.exceptionRaised

/-- Execute one effect: once execution has ended, nothing further
happens. -/
def step (k : RunResult) (a : Act) : RunResult :=
  if k.halted then k
  else
    match a with
    | Act.out s => { k with output := k.output ++ [s] }
    | Act.incTab => { k with tab := GateMessageManager.IncTab k.tab }
    | Act.decTab => { k with tab := GateMessageManager.DecTab k.tab }
    | Act.resetTab => { k with tab := GateMessageManager.ResetTab k.tab }
    | Act.exitCall c => { k with exited := some c }
    | Act.g4Exception _ _ => { k with exceptionRaised := true }

/-- Execute a trace of effects starting from a given tab string. -/
def run (tab : List Char) (tr : List Act) : RunResult :=
  tr.foldl step ⟨[], tab, none, false⟩

/-- `Gateendl` (header line 424) is `std::endl`. -/
def Gateendl : String := "\n"

/-- `GateMessageCode(key, value)` (header lines 136-138, with
`GATE_PREPEND_MESSAGE_WITH_CODE` defined): `"[" << key << "-" << value
<< "] "`. -/
def GateMessageCode (key : String) (value : Int) : String :=
  "[" ++ key ++ "-" ++ toString value ++ "] "

/-- `GateWarning(MESSAGE)` (header lines 358-372, with
`GATE_COMPILE_WARNING_MESSAGES` defined): look up the level of the
`"Warning"` pseudo-category; if it is `> 0`, write the WARNING-marked
message line; if it is additionally `> 1`, write a second line with the
call site's file and line. -/
def GateWarning (lvls : Levels) (file : String) (line : Nat) (msg : String) :
    List Act :=
  let lev := GateMessageManager.GetMessageLevel lvls "Warning"
  if lev > 0 then
    Act.out (" <!> *** WARNING *** <!>  " ++ msg ++ Gateendl) ::
      (if lev > 1 then
        [Act.out (" <!> *** WARNING *** <!>  In file \x27" ++ file ++
          "\x27 ; Line " ++ toString line ++ Gateendl)]
      else [])
  else []

/-- The message text of the unknown-category warning raised by
`GateOnMessageLevel` (header line 131): `"message type '" << key << "'
unknown"`. -/
def unknownTypeMsg (key : String) : String :=
  "message type \x27" ++ key ++ "\x27 unknown"

/-- `GateOnMessageLevel(key, value)` (header lines 126-133): fetch the
level of `key`; if it is negative (unknown category), raise the
`GateWarning` and skip the body; otherwise run the body iff
`value <= level`. -/
def GateOnMessageLevel (lvls : Levels) (file : String) (line : Nat)
    (key : String) (value : Int) (body : List Act) : List Act :=
  let l := GateMessageManager.GetMessageLevel lvls key
  if l < 0 then GateWarning lvls file line (unknownTypeMsg key)
  else if value ≤ l then body
  else []

/-- `GateMessage(key, value, MESSAGE)` (header lines 172-181): under the
level gate, write `GateMessageCode(key, value) << GateMessageSpace(value)
<< MESSAGE` (with `GATE_PREPEND_MESSAGE_WITH_CODE` and
`GATE_PREPEND_MESSAGE_WITH_SPACE` defined; note the macro does not insert
`GateMessageTab`). -/
def GateMessage (lvls : Levels) (file : String) (line : Nat)
    (key : String) (value : Int) (msg : String) : List Act :=
  GateOnMessageLevel lvls file line key value
    [Act.out (GateMessageCode key value ++
      GateMessageManager.GetSpace value ++ msg)]

/-- `GateMessageCont(key, value, MESSAGE)` (header lines 186-194): under
the level gate, write `MESSAGE` alone (no code, no space, no newline). -/
def GateMessageCont (lvls : Levels) (file : String) (line : Nat)
    (key : String) (value : Int) (msg : String) : List Act :=
  GateOnMessageLevel lvls file line key value [Act.out msg]

/-- `GateMessageInc(key, value, MESSAGE)` (header lines 196-207): under
the level gate, write the composed message and then call `IncTab`. -/
def GateMessageInc (lvls : Levels) (file : String) (line : Nat)
    (key : String) (value : Int) (msg : String) : List Act :=
  GateOnMessageLevel lvls file line key value
    [Act.out (GateMessageCode key value ++
      GateMessageManager.GetSpace value ++ msg),
     Act.incTab]

/-- `GateMessageDec(key, value, MESSAGE)` (header lines 209-220): under
the level gate, call `DecTab` and then write the composed message. -/
def GateMessageDec (lvls : Levels) (file : String) (line : Nat)
    (key : String) (value : Int) (msg : String) : List Act :=
  GateOnMessageLevel lvls file line key value
    [Act.decTab,
     Act.out (GateMessageCode key value ++
      GateMessageManager.GetSpace value ++ msg)]

/-- `GateIncTab(key, value)` (header lines 232-240): under the level
gate, call `IncTab` without writing anything. -/
def GateIncTab (lvls : Levels) (file : String) (line : Nat)
    (key : String) (value : Int) : List Act :=
  GateOnMessageLevel lvls file line key value [Act.incTab]

/-- `GateDecTab(key, value)` (header lines 222-230): under the level
gate, call `DecTab` without writing anything. -/
def GateDecTab (lvls : Levels) (file : String) (line : Nat)
    (key : String) (value : Int) : List Act :=
  GateOnMessageLevel lvls file line key value [Act.decTab]

/-- `GateResetTab()` (header lines 242-247): call `ResetTab`
unconditionally. -/
def GateResetTab : List Act :=
  [Act.resetTab]

/-- `__SHORT_FILE__` (header line 385):
`strrchr(__FILE__, '/') ? strrchr(__FILE__, '/') + 1 : __FILE__` — the
suffix after the last `/`, or the whole name when there is none. -/
def shortFile (f : String) : String :=
  String.mk ((f.toList.reverse.takeWhile (fun c => c ≠ '/')).reverse)

/-- `GateError(MESSAGE)` (header lines 386-400, with
`GATE_COMPILE_ERROR_MESSAGES` defined): build `str_f` = short file name,
line, `": "` and `str_s` = the message; write `str_f << str_s << Gateendl`
to `std::cout`; call `exit(-1)`; then (textually) call
`G4Exception(str_f, str_s, FatalException, " ")`.  The macro never reads
the registry; the `lvls` parameter records that the surrounding process
state is present but unconsulted. -/
def GateError (lvls : Levels) (file : String) (line : Nat) (msg : String) :
    List Act :=
  let str_f := shortFile file ++ " (l." ++ toString line ++ "): "
  let str_s := msg
  [Act.out (str_f ++ str_s ++ Gateendl),
   Act.exitCall (-1),
   Act.g4Exception str_f str_s]

/-- An Increment or Decrement call on the indentation tracker. -/
inductive TabOp where
  | inc
  | dec
deriving DecidableEq, Repr

/-- A tab call as an effect. -/
def TabOp.toAct : TabOp → Act
  | TabOp.inc => Act.incTab
  | TabOp.dec => Act.decTab

/-- One step of the ideal clamped indentation depth: increment adds one,
decrement subtracts one clamping at zero (`Nat` truncated
subtraction). -/
def clampStep (d : Nat) : TabOp → Nat
  | TabOp.inc => d + 1
  | TabOp.dec => d - 1

/-- The ideal clamped indentation depth after a sequence of calls,
starting from depth zero. -/
def clampDepth (ops : List TabOp) : Nat :=
  ops.foldl clampStep 0

/-- Folding `step` over a trace of console writes only, from a live
(non-terminated) state, writes each line and neither terminates the
process nor touches the tab state. -/
lemma foldl_outs_only (tr : List Act) (k : RunResult)
    (h : ∀ a ∈ tr, ∃ s, a = Act.out s)
    (hx : k.exited = none) (he : k.exceptionRaised = false) :
    (tr.foldl step k).output.length = k.output.length + tr.length ∧
    (tr.foldl step k).tab = k.tab ∧
    (tr.foldl step k).exited = none ∧
    (tr.foldl step k).exceptionRaised = false := by
  induction tr generalizing k with
  | nil => simpa using ⟨hx, he⟩
  | cons a r ih =>
    obtain ⟨s, rfl⟩ := h a (by simp)
    have hk : step k (Act.out s) = { k with output := k.output ++ [s] } := by
      simp [step, RunResult.halted, hx, he]
    rw [List.foldl_cons, hk]
    have hr := ih { k with output := k.output ++ [s] }
      (fun b hb => h b (by simp [hb])) (by simp [hx]) (by simp [he])
    refine ⟨?_, hr.2.1, hr.2.2.1, hr.2.2.2⟩
    rw [hr.1]
    simp
    omega

/-- Running a trace that consists of console writes only neither
terminates the process nor touches the tab state. -/
lemma run_outs_only (tab : List Char) (tr : List Act)
    (h : ∀ a ∈ tr, ∃ s, a = Act.out s) :
    (run tab tr).output.length = tr.length ∧ (run tab tr).tab = tab ∧
    (run tab tr).exited = none ∧ (run tab tr).exceptionRaised = false := by
  have := foldl_outs_only tr ⟨[], tab, none, false⟩ h rfl rfl
  simpa [run] using this

/-- Every effect of a `GateWarning` expansion is a console write. -/
lemma mem_GateWarning_out (lvls : Levels) (file : String) (line : Nat)
    (msg : String) (a : Act) (ha : a ∈ GateWarning lvls file line msg) :
    ∃ s, a = Act.out s := by
  unfold GateWarning at ha
  by_cases h1 : GateMessageManager.GetMessageLevel lvls "Warning" > 0
  · rw [if_pos h1] at ha
    by_cases h2 : GateMessageManager.GetMessageLevel lvls "Warning" > 1
    · rw [if_pos h2] at ha
      simp only [List.mem_cons, List.mem_singleton] at ha
      rcases ha with h | h | h
      · exact ⟨_, h⟩
      · exact ⟨_, h⟩
      · exact absurd h (by simp)
    · rw [if_neg h2] at ha
      simp only [List.mem_cons] at ha
      rcases ha with h | h
      · exact ⟨_, h⟩
      · exact absurd h (by simp)
  · rw [if_neg h1] at ha
    exact absurd ha (by simp)

/-- When the level filter refuses (unknown category or level above the
threshold), a gated macro expands to either the unknown-type warning
trace or the empty trace. -/
lemma GateOnMessageLevel_filtered (lvls : Levels) (file : String)
    (line : Nat) (key : String) (value : Int) (body : List Act)
    (h : GateMessageManager.GetMessageLevel lvls key < 0 ∨
      ¬ value ≤ GateMessageManager.GetMessageLevel lvls key) :
    GateOnMessageLevel lvls file line key value body =
      GateWarning lvls file line (unknownTypeMsg key) ∨
    GateOnMessageLevel lvls file line key value body = [] := by
  unfold GateOnMessageLevel
  by_cases h0 : GateMessageManager.GetMessageLevel lvls key < 0
  · left; rw [if_pos h0]
  · right
    rcases h with h | h
    · exact absurd h h0
    · rw [if_neg h0, if_neg h]

/-- Running a `GateWarning` trace leaves the tab state unchanged and does
not terminate the process. -/
lemma run_GateWarning (tab : List Char) (lvls : Levels) (file : String)
    (line : Nat) (msg : String) :
    (run tab (GateWarning lvls file line msg)).tab = tab ∧
    (run tab (GateWarning lvls file line msg)).exited = none ∧
    (run tab (GateWarning lvls file line msg)).exceptionRaised = false := by
  have := run_outs_only tab (GateWarning lvls file line msg)
    (mem_GateWarning_out lvls file line msg)
  exact ⟨this.2.1, this.2.2.1, this.2.2.2⟩

/-- C5: invoking the object-scoped fatal-error entry point writes the
formatted message (short file name, line number, message) to the console
sink exactly once, independently of the registry state (the trace equals
the one produced under the empty registry, so there is no level gate),
and then terminates the process via `exit(-1)`. -/
theorem GateError_writes_once_then_exits (lvls : Levels) (file : String)
    (line : Nat) (msg : String) (tab : List Char) :
    (run tab (GateError lvls file line msg)).output =
      [shortFile file ++ " (l." ++ toString line ++ "): " ++ msg ++ Gateendl] ∧
    (run tab (GateError lvls file line msg)).exited = some (-1) ∧
    GateError lvls file line msg = GateError [] file line msg :=
  ⟨rfl, rfl, rfl⟩

/-- C6: the `G4Exception` statement is textually present in the
object-scoped fatal-error macro, yet the structured fatal-exception path
is never reached: the unconditional `exit(-1)` precedes it, so execution
never raises it (dead code). -/
theorem GateError_g4Exception_dead_code (lvls : Levels) (file : String)
    (line : Nat) (msg : String) (tab : List Char) :
    Act.g4Exception (shortFile file ++ " (l." ++ toString line ++ "): ") msg ∈
      GateError lvls file line msg ∧
    (run tab (GateError lvls file line msg)).exceptionRaised = false :=
  ⟨by simp [GateError], rfl⟩

/-- C1: for a category registered with threshold `T` in `[0,255]` and a
requested level `L` in `[0,255]`, the informational message macro emits
its composed message iff `L ≤ T` (exact smaller-or-equal comparison, so
`L = T` passes the gate). -/
theorem GateMessage_emits_iff_le (lvls : Levels) (file : String)
    (line : Nat) (key : String) (T L : Int) (msg : String)
    (hreg : lvls.lookup key = some T) (hT0 : 0 ≤ T) (hT : T ≤ 255)
    (hL0 : 0 ≤ L) (hL : L ≤ 255) :
    GateMessage lvls file line key L msg =
      (if L ≤ T then
        [Act.out (GateMessageCode key L ++
          GateMessageManager.GetSpace L ++ msg)]
      else []) ∧
    (GateMessage lvls file line key L msg ≠ [] ↔ L ≤ T) := by
  have hGet : GateMessageManager.GetMessageLevel lvls key = T := by
    simp [GateMessageManager.GetMessageLevel, hreg]
  have h1 : GateMessage lvls file line key L msg =
      (if L ≤ T then
        [Act.out (GateMessageCode key L ++
          GateMessageManager.GetSpace L ++ msg)]
      else []) := by
    simp only [GateMessage, GateOnMessageLevel, hGet]
    rw [if_neg (by omega)]
  refine ⟨h1, ?_⟩
  rw [h1]
  by_cases hle : L ≤ T
  · simp [hle]
  · simp [hle]

/-- Witness for C1 at the registry `[("Core", 5)]`, requested level 5
(the boundary case `L = T`). -/
theorem GateMessage_emits_iff_le_witness :
    (([("Core", (5 : Int))] : Levels).lookup "Core" = some 5 ∧
      (0 : Int) ≤ 5 ∧ (5 : Int) ≤ 255) ∧
    (GateMessage [("Core", (5 : Int))] "f.cc" 1 "Core" 5 "m" ≠ [] ↔
      (5 : Int) ≤ 5) :=
  ⟨⟨by decide, by decide, by decide⟩,
   (GateMessage_emits_iff_le [("Core", (5 : Int))] "f.cc" 1 "Core" 5 5 "m"
     (by decide) (by decide) (by decide) (by decide) (by decide)).2⟩

/-- C4: with the "Warning" pseudo-category registered at level `w` in
`[0,255]`: `w = 0` suppresses the warning entirely; `w ≥ 1` emits the
WARNING-marked message line; `w ≥ 2` additionally appends a line with
the call site's file name and line number; and in every case the warning
call neither exits the process nor raises the structured fatal
exception. -/
theorem GateWarning_levels (lvls : Levels) (file : String) (line : Nat)
    (msg : String) (tab : List Char) (w : Int)
    (hreg : lvls.lookup "Warning" = some w) (h0 : 0 ≤ w) (h255 : w ≤ 255) :
    GateWarning lvls file line msg =
      (if 2 ≤ w then
        [Act.out (" <!> *** WARNING *** <!>  " ++ msg ++ Gateendl),
         Act.out (" <!> *** WARNING *** <!>  In file \x27" ++ file ++
           "\x27 ; Line " ++ toString line ++ Gateendl)]
      else if 1 ≤ w then
        [Act.out (" <!> *** WARNING *** <!>  " ++ msg ++ Gateendl)]
      else []) ∧
    (run tab (GateWarning lvls file line msg)).exited = none ∧
    (run tab (GateWarning lvls file line msg)).exceptionRaised = false := by
  have hGet : GateMessageManager.GetMessageLevel lvls "Warning" = w := by
    simp [GateMessageManager.GetMessageLevel, hreg]
  have hrw := run_GateWarning tab lvls file line msg
  refine ⟨?_, hrw.2.1, hrw.2.2⟩
  simp only [GateWarning, hGet]
  by_cases h2 : 2 ≤ w
  · rw [if_pos (show w > 0 by omega), if_pos (show w > 1 by omega),
      if_pos h2]
  · rw [if_neg h2]
    by_cases h1 : 1 ≤ w
    · rw [if_pos (show w > 0 by omega), if_neg (show ¬ w > 1 by omega),
        if_pos h1]
    · rw [if_neg (show ¬ w > 0 by omega), if_neg h1]

/-- Witness for C4 at the registry `[("Warning", 2)]` (the file/line
branch). -/
theorem GateWarning_levels_witness :
    (([("Warning", (2 : Int))] : Levels).lookup "Warning" = some 2 ∧
      (0 : Int) ≤ 2 ∧ (2 : Int) ≤ 255) ∧
    (run [] (GateWarning [("Warning", (2 : Int))] "f.cc" 7 "m")).exited =
      none :=
  ⟨⟨by decide, by decide, by decide⟩,
   (GateWarning_levels [("Warning", (2 : Int))] "f.cc" 7 "m" [] 2
     (by decide) (by decide) (by decide)).2.1⟩

/-- C2 counterexample: two informational calls with the same unregistered
key "Foo" (with the "Warning" level at 1) each raise the unknown-type
warning, so two warnings are observable, not exactly one. -/
theorem GateMessage_unknown_two_calls_two_warnings :
    (GateMessage [("Warning", (1 : Int))] "f.cc" 10 "Foo" 3 "x" ++
        GateMessage [("Warning", (1 : Int))] "f.cc" 10 "Foo" 3 "x" =
      [Act.out
        (" <!> *** WARNING *** <!>  message type \x27Foo\x27 unknown\n"),
       Act.out
        (" <!> *** WARNING *** <!>  message type \x27Foo\x27 unknown\n")]) ∧
    (GateMessage [("Warning", (1 : Int))] "f.cc" 10 "Foo" 3 "x" ++
        GateMessage [("Warning", (1 : Int))] "f.cc" 10 "Foo" 3 "x").length
      ≠ 1 := by
  decide

/-- C2 (amended): an informational call for an unregistered key emits no
message (suppressed), does not exit the process or raise the structured
exception (no crash), and raises the "message type unknown" warning on
every such call — repeated calls yield one warning per call, not one in
total. -/
theorem GateMessage_unknown_suppressed_warns_each_call (lvls : Levels)
    (file : String) (line : Nat) (key : String) (L : Int) (msg : String)
    (tab : List Char) (h : lvls.lookup key = none) :
    GateMessage lvls file line key L msg =
      GateWarning lvls file line (unknownTypeMsg key) ∧
    (run tab (GateMessage lvls file line key L msg)).exited = none ∧
    (run tab (GateMessage lvls file line key L msg)).exceptionRaised =
      false := by
  have hGet : GateMessageManager.GetMessageLevel lvls key = -1 := by
    simp [GateMessageManager.GetMessageLevel, h]
  have h1 : GateMessage lvls file line key L msg =
      GateWarning lvls file line (unknownTypeMsg key) := by
    simp only [GateMessage, GateOnMessageLevel, hGet]
    rw [if_pos (by omega)]
  rw [h1]
  exact ⟨rfl, (run_GateWarning tab lvls file line _).2.1,
    (run_GateWarning tab lvls file line _).2.2⟩

/-- Witness for the amended C2 at a concrete unregistered key. -/
theorem GateMessage_unknown_suppressed_warns_each_call_witness :
    (([("Warning", (1 : Int))] : Levels).lookup "Foo" = none) ∧
    GateMessage [("Warning", (1 : Int))] "f.cc" 10 "Foo" 3 "x" =
      GateWarning [("Warning", (1 : Int))] "f.cc" 10 (unknownTypeMsg "Foo") :=
  ⟨by decide,
   (GateMessage_unknown_suppressed_warns_each_call [("Warning", (1 : Int))]
     "f.cc" 10 "Foo" 3 "x" [] (by decide)).1⟩

/-- Folding the tab effects of Increment/Decrement calls from a live
state whose tab length is `3 * d` (with everything below the `size_t`
range) yields a tab length of three times the ideally clamped depth. -/
lemma foldl_tab_invariant (ops : List TabOp) :
    ∀ (k : RunResult) (d : Nat), k.exited = none →
    k.exceptionRaised = false → k.tab.length = 3 * d →
    3 * d + 3 * ops.length < 2 ^ 64 →
    ((ops.map TabOp.toAct).foldl step k).tab.length =
      3 * ops.foldl clampStep d := by
  induction ops with
  | nil =>
    intro k d _ _ hlen _
    simpa using hlen
  | cons op r ih =>
    intro k d hx he hlen hbound
    have hlive : k.halted = false := by
      simp [RunResult.halted, hx, he]
    cases op with
    | inc =>
      have hst : step k Act.incTab =
          { k with tab := GateMessageManager.IncTab k.tab } := by
        simp [step, hlive]
      have hlen' :
          ({ k with tab := GateMessageManager.IncTab k.tab } :
            RunResult).tab.length = 3 * (d + 1) := by
        simp [GateMessageManager.IncTab, hlen]
        omega
      simp only [List.map_cons, List.foldl_cons, hst, TabOp.toAct]
      rw [ih _ (d + 1) (by simp [hx]) (by simp [he]) hlen'
        (by simp at hbound ⊢; omega)]
      rfl
    | dec =>
      have hst : step k Act.decTab =
          { k with tab := GateMessageManager.DecTab k.tab } := by
        simp [step, hlive]
      simp only [List.map_cons, List.foldl_cons, hst, TabOp.toAct]
      rcases Nat.eq_zero_or_pos d with hd | hd
      · subst hd
        have htab : k.tab = [] := by
          rw [← List.length_eq_zero]
          simpa using hlen
        have hlen' :
            ({ k with tab := GateMessageManager.DecTab k.tab } :
              RunResult).tab.length = 3 * 0 := by
          simp [GateMessageManager.DecTab, htab]
        rw [ih _ 0 (by simp [hx]) (by simp [he]) hlen'
          (by simp at hbound ⊢; omega)]
        rfl
      · obtain ⟨e, rfl⟩ : ∃ e, d = e + 1 :=
          ⟨d - 1, by omega⟩
        have hcount : (k.tab.length + (2 ^ 64 - 3)) % 2 ^ 64 = 3 * e := by
          rw [hlen]
          have hlt : 3 * (e + 1) < 2 ^ 64 := by
            simp at hbound
            omega
          omega
        have hlen' :
            ({ k with tab := GateMessageManager.DecTab k.tab } :
              RunResult).tab.length = 3 * e := by
          simp only [GateMessageManager.DecTab, hcount, List.length_take,
            hlen]
          omega
        rw [ih _ e (by simp [hx]) (by simp [he]) hlen'
          (by simp at hbound ⊢; omega)]
        have : clampStep (e + 1) TabOp.dec = e := by
          simp [clampStep]
        rw [this]

/-- C7: for every realizable sequence of Increment/Decrement calls
starting from depth zero, the tab string's length is three times the
ideally clamped depth — the depth never underflows, and a decrement at
depth zero (including decrement-before-any-increment) is a no-op leaving
depth zero (the `size_t` wraparound in `DecTab` makes `substr` clamp its
count argument instead of underflowing or crashing). -/
theorem tab_depth_never_negative (ops : List TabOp)
    (h : 3 * ops.length < 2 ^ 64) :
    (run [] (ops.map TabOp.toAct)).tab.length = 3 * clampDepth ops := by
  have := foldl_tab_invariant ops ⟨[], [], none, false⟩ 0 rfl rfl
    (by simp) (by simpa using h)
  simpa [run, clampDepth] using this

/-- Witness for C7 at a sequence that decrements before any increment
and past zero. -/
theorem tab_depth_never_negative_witness :
    3 * ([TabOp.dec, TabOp.dec, TabOp.inc, TabOp.dec, TabOp.dec] :
      List TabOp).length < 2 ^ 64 ∧
    (run [] (([TabOp.dec, TabOp.dec, TabOp.inc, TabOp.dec, TabOp.dec] :
        List TabOp).map TabOp.toAct)).tab.length =
      3 * clampDepth [TabOp.dec, TabOp.dec, TabOp.inc, TabOp.dec,
        TabOp.dec] :=
  ⟨by decide,
   tab_depth_never_negative
     [TabOp.dec, TabOp.dec, TabOp.inc, TabOp.dec, TabOp.dec] (by decide)⟩

/-- C8: when the level filter permits, the continuation variant writes
the payload alone (same line, no code/space prefix, no newline); the
increment variant writes the composed message and then increments the
indentation; the decrement variant decrements the indentation and then
writes the composed message. -/
theorem variant_operation_orders (lvls : Levels) (file : String)
    (line : Nat) (key : String) (T L : Int) (msg : String)
    (hreg : lvls.lookup key = some T) (hT0 : 0 ≤ T) (hperm : L ≤ T) :
    GateMessageCont lvls file line key L msg = [Act.out msg] ∧
    GateMessageInc lvls file line key L msg =
      [Act.out (GateMessageCode key L ++
        GateMessageManager.GetSpace L ++ msg),
       Act.incTab] ∧
    GateMessageDec lvls file line key L msg =
      [Act.decTab,
       Act.out (GateMessageCode key L ++
        GateMessageManager.GetSpace L ++ msg)] := by
  have hGet : GateMessageManager.GetMessageLevel lvls key = T := by
    simp [GateMessageManager.GetMessageLevel, hreg]
  refine ⟨?_, ?_, ?_⟩
  · simp only [GateMessageCont, GateOnMessageLevel, hGet]
    rw [if_neg (by omega), if_pos hperm]
  · simp only [GateMessageInc, GateOnMessageLevel, hGet]
    rw [if_neg (by omega), if_pos hperm]
  · simp only [GateMessageDec, GateOnMessageLevel, hGet]
    rw [if_neg (by omega), if_pos hperm]

/-- Witness for C8 at the registry `[("Core", 5)]`, level 3. -/
theorem variant_operation_orders_witness :
    (([("Core", (5 : Int))] : Levels).lookup "Core" = some 5 ∧
      (0 : Int) ≤ 5 ∧ (3 : Int) ≤ 5) ∧
    GateMessageCont [("Core", (5 : Int))] "f.cc" 1 "Core" 3 "p" =
      [Act.out "p"] :=
  ⟨⟨by decide, by decide, by decide⟩,
   (variant_operation_orders [("Core", (5 : Int))] "f.cc" 1 "Core" 5 3 "p"
     (by decide) (by decide) (by decide)).1⟩

/-- C9: whenever the level filter refuses — the category is unknown, or
the requested level exceeds the category's threshold — the
increment/decrement message variants and the bare tab
increment/decrement macros leave the indentation state unchanged. -/
theorem tab_unchanged_when_filtered (lvls : Levels) (file : String)
    (line : Nat) (key : String) (L : Int) (msg : String) (tab : List Char)
    (h : GateMessageManager.GetMessageLevel lvls key < 0 ∨
      ¬ L ≤ GateMessageManager.GetMessageLevel lvls key) :
    (run tab (GateMessageInc lvls file line key L msg)).tab = tab ∧
    (run tab (GateMessageDec lvls file line key L msg)).tab = tab ∧
    (run tab (GateIncTab lvls file line key L)).tab = tab ∧
    (run tab (GateDecTab lvls file line key L)).tab = tab := by
  have hw := run_GateWarning tab lvls file line (unknownTypeMsg key)
  refine ⟨?_, ?_, ?_, ?_⟩
  · simp only [GateMessageInc]
    rcases GateOnMessageLevel_filtered lvls file line key L _ h with h1 | h1
      <;> rw [h1]
    · exact hw.1
    · rfl
  · simp only [GateMessageDec]
    rcases GateOnMessageLevel_filtered lvls file line key L _ h with h1 | h1
      <;> rw [h1]
    · exact hw.1
    · rfl
  · simp only [GateIncTab]
    rcases GateOnMessageLevel_filtered lvls file line key L _ h with h1 | h1
      <;> rw [h1]
    · exact hw.1
    · rfl
  · simp only [GateDecTab]
    rcases GateOnMessageLevel_filtered lvls file line key L _ h with h1 | h1
      <;> rw [h1]
    · exact hw.1
    · rfl

/-- Witness for C9 at a registered category whose threshold the request
exceeds. -/
theorem tab_unchanged_when_filtered_witness :
    (GateMessageManager.GetMessageLevel [("Core", (5 : Int))] "Core" < 0 ∨
      ¬ (7 : Int) ≤
        GateMessageManager.GetMessageLevel [("Core", (5 : Int))] "Core") ∧
    (run [' ', ' ', ' ']
      (GateMessageInc [("Core", (5 : Int))] "f.cc" 1 "Core" 7 "m")).tab =
      [' ', ' ', ' '] :=
  ⟨Or.inr (by decide),
   (tab_unchanged_when_filtered [("Core", (5 : Int))] "f.cc" 1 "Core" 7 "m"
     [' ', ' ', ' '] (Or.inr (by decide))).1⟩

/-- C10: if the "Warning" pseudo-category is itself unregistered, every
warning call emits nothing; in particular the unknown-type warning that
the level filter raises for an unknown informational category is
silently dropped, so an informational call for an unknown category
produces no observable output whatsoever. -/
theorem warning_unregistered_silences_all (lvls : Levels) (file : String)
    (line : Nat) (key : String) (L : Int) (msg wmsg : String)
    (hW : lvls.lookup "Warning" = none) (hk : lvls.lookup key = none) :
    GateWarning lvls file line wmsg = [] ∧
    GateMessage lvls file line key L msg = [] := by
  have hGetW : GateMessageManager.GetMessageLevel lvls "Warning" = -1 := by
    simp [GateMessageManager.GetMessageLevel, hW]
  have hWnil : ∀ m, GateWarning lvls file line m = [] := by
    intro m
    simp only [GateWarning, hGetW]
    rw [if_neg (by omega)]
  have hGetk : GateMessageManager.GetMessageLevel lvls key = -1 := by
    simp [GateMessageManager.GetMessageLevel, hk]
  refine ⟨hWnil wmsg, ?_⟩
  simp only [GateMessage, GateOnMessageLevel, hGetk]
  rw [if_pos (by omega)]
  exact hWnil _

/-- Witness for C10 at the empty registry. -/
theorem warning_unregistered_silences_all_witness :
    (([] : Levels).lookup "Warning" = none ∧
      ([] : Levels).lookup "Foo" = none) ∧
    GateWarning [] "f.cc" 2 "w" = [] ∧
    GateMessage [] "f.cc" 2 "Foo" 3 "m" = [] :=
  ⟨⟨by decide, by decide⟩,
   warning_unregistered_silences_all [] "f.cc" 2 "Foo" 3 "m" "w"
     (by decide) (by decide)⟩

/-- C3 (code defect): with `GATE_PREPEND_MESSAGE_WITH_TAB` defined, the
header's own comments (lines 92-121) document that messages are
prepended with the current tabulation, and `GateMessageTab` exists for
exactly that — yet `GateMessage` never inserts it.  After three tab
increments the tab string holds three indentation units (nine spaces),
but the emitted message is `"[Core-0] hello\n"`, which carries no
indentation at all (its first three characters are not even one unit of
three spaces). -/
theorem GateMessage_output_carries_no_tab_prefix :
    run [] ([Act.incTab, Act.incTab, Act.incTab] ++
        GateMessage [("Core", (5 : Int)), ("Warning", (1 : Int))] "f.cc" 1
          "Core" 0 "hello\n") =
      ⟨["[Core-0] hello\n"], List.replicate 9 ' ', none, false⟩ ∧
    ("[Core-0] hello\n").data.take 3 ≠ List.replicate 3 ' ' := by
  decide

end Gate
